import Mathlib

/-!
Verification of the PID control / telemetry-ingestion engine of the
PID_Interfaz repository (files PID_GUI_Experimental.py and server.py).

Shallow embedding notes.

* 64-bit floats are modelled as rationals.  A pandas cell that is NaN
  (e.g. a field absent from an ingested record, filled in by column
  alignment) is modelled as none of Option Rat; float arithmetic on NaN
  propagates, which the fadd / fsub / fmul helpers mirror.
* Column presence is tracked separately from cell contents: a pandas
  .at read raises KeyError when the COLUMN is absent from the DataFrame
  (it returns NaN only for a NaN cell of an existing column).  The window
  state therefore carries one flag per column of the frame.  update_plot
  reads the Setpoint and Valor Medido columns; when either column is
  missing the call raises before any mutation, which the model renders as
  the identity on the state (the raise itself is the tickRaises
  predicate, consulted by the ingestion loop, where the exception
  propagates to the outer handler and ends the loop).  Writes through .at
  enlarge the frame, creating the column when needed, so the Error write
  always succeeds.  start_simulation consults the P / I / D column flags
  for its stamping loop.
* MainWindow state relevant to the engine: simulation_data (the store and
  its column set), fixed_pid_values (a dict that is either empty or holds
  the three frozen gains; reads go through dict.get with default 0.0),
  previous_error, integral_error, current_index (the cursor), the QTimer
  activity flag, the timer interval in milliseconds (100 in
  setup_simulation), and the socket-loop running flag.
* Pure display work (plot updates, table widgets, button enabling) has no
  effect on the store or the controller state and is not modelled, except
  for the timer stop that signals Done.
-/

/-- A float64 value as stored in a pandas cell: none models NaN. -/
abbrev FVal := Option ℚ

/-- Float addition; NaN propagates. -/
def fadd : FVal → FVal → FVal
  | some a, some b => some (a + b)
  | _, _ => none

/-- Float subtraction; NaN propagates. -/
def fsub : FVal → FVal → FVal
  | some a, some b => some (a - b)
  | _, _ => none

/-- Float multiplication; NaN propagates (as in IEEE floats, 0 * NaN
is NaN). -/
def fmul : FVal → FVal → FVal
  | some a, some b => some (a * b)
  | _, _ => none

/-- Division of a float cell by a plain (non-NaN) scalar.  The code only
divides by dt after checking dt > 0, so the divisor is never zero. -/
def fdivC (a : FVal) (c : ℚ) : FVal := a.map (· / c)

/-- One row of simulation_data.  The column names in the DataFrame are
Time, Setpoint, Valor Medido, Error, P, I, D. -/
structure Sample where
  time     : FVal
  setpoint : FVal
  measured : FVal
  error    : FVal
  p        : FVal
  i        : FVal
  d        : FVal
deriving DecidableEq

instance : Inhabited Sample := ⟨⟨none, none, none, none, none, none, none⟩⟩

/-- The three gains held in fixed_pid_values once a run has started. -/
structure Gains where
  p : ℚ
  i : ℚ
  d : ℚ
deriving DecidableEq

/-- The engine-relevant state of MainWindow. -/
structure WinState where
  /-- Rows of self.simulation_data. -/
  store : List Sample
  /-- Whether the Time column exists in the DataFrame. -/
  colTime : Bool
  /-- Whether the Setpoint column exists in the DataFrame. -/
  colSetpoint : Bool
  /-- Whether the Valor Medido column exists in the DataFrame. -/
  colMeasured : Bool
  /-- Whether the Error column exists in the DataFrame. -/
  colError : Bool
  /-- Whether the P column exists in the DataFrame. -/
  colP : Bool
  /-- Whether the I column exists in the DataFrame. -/
  colI : Bool
  /-- Whether the D column exists in the DataFrame. -/
  colD : Bool
  /-- Models self.fixed_pid_values: none is the empty dict (reads through
  dict.get with default 0.0 then yield 0.0 for every axis). -/
  fixedGains : Option Gains
  /-- Models self.previous_error (a float, hence possibly NaN). -/
  previousError : FVal
  /-- Models self.integral_error. -/
  integralError : FVal
  /-- Models self.current_index. -/
  cursor : ℕ
  /-- Whether self.timer is active. -/
  timerActive : Bool
  /-- Models the timer interval in milliseconds (100 in setup_simulation). -/
  intervalMs : ℤ
  /-- Models self.running, the socket-loop flag. -/
  running : Bool
deriving DecidableEq

/-- One PID axis of the configuration UI, as read by
get_pid_value_from_ui: the enable checkbox, the text of value_label
and the text of value_input (each none when not parseable as a float). -/
structure AxisUI where
  enabled : Bool
  valueLabel : Option ℚ
  valueInput : Option ℚ
deriving DecidableEq

/-- The three axes of the configuration UI. -/
structure UIState where
  axP : AxisUI
  axI : AxisUI
  axD : AxisUI
deriving DecidableEq

/-- Models MainWindow.get_pid_value_from_ui: if the axis checkbox is
checked, parse value_label; on failure fall back to value_input, then to
0.0; if unchecked, return 0.0. -/
def get_pid_value_from_ui (a : AxisUI) : ℚ :=
  if a.enabled then
    match a.valueLabel with
    | some v => v
    | none =>
      match a.valueInput with
      | some v => v
      | none => 0
  else 0

/-- Models dt = self.timer.interval() / 1000.0 as computed in update_plot. -/
def dtOf (w : WinState) : ℚ := (w.intervalMs : ℚ) / 1000

/-- The effective gains used by update_plot, namely
self.fixed_pid_values.get(axis, 0.0) for each axis. -/
def effGains (w : WinState) : Gains :=
  match w.fixedGains with
  | some g => g
  | none => ⟨0, 0, 0⟩

/-- The row self.simulation_data holds at self.current_index. -/
def rowAt (w : WinState) : Sample := w.store.getD w.cursor default

/-- The early-return condition of update_plot:
self.simulation_data.empty or self.current_index >= len(self.simulation_data). -/
def tickDone (w : WinState) : Prop :=
  w.store = [] ∨ w.store.length ≤ w.cursor

instance (w : WinState) : Decidable (tickDone w) := by
  unfold tickDone; infer_instance

/-- The condition under which update_plot raises: past the early return,
the .at reads of the Setpoint and Valor Medido cells raise KeyError when
the respective column is absent from the DataFrame, before any mutation
has happened. -/
def tickRaises (w : WinState) : Prop :=
  ¬ tickDone w ∧ (w.colSetpoint = false ∨ w.colMeasured = false)

instance (w : WinState) : Decidable (tickRaises w) := by
  unfold tickRaises; infer_instance

/-- The error read at the cursor: error = setpoint - measured_value. -/
def tickErrorVal (w : WinState) : FVal :=
  fsub (rowAt w).setpoint (rowAt w).measured

/-- The integral accumulator after the update self.integral_error +=
error * dt of this tick (applied unconditionally, before the output is
formed). -/
def tickIntegral (w : WinState) : FVal :=
  fadd w.integralError (fmul (tickErrorVal w) (some (dtOf w)))

/-- The derivative term: (error - self.previous_error) / dt if dt > 0
else 0.0. -/
def tickDerivative (w : WinState) : FVal :=
  if 0 < dtOf w then fdivC (fsub (tickErrorVal w) w.previousError) (dtOf w)
  else some 0

/-- The controller output pid_output = (Kp * error) +
(Ki * self.integral_error) + (Kd * derivative_error), where
self.integral_error has already been updated by this tick. -/
def tickOutput (w : WinState) : FVal :=
  fadd
    (fadd (fmul (some (effGains w).p) (tickErrorVal w))
          (fmul (some (effGains w).i) (tickIntegral w)))
    (fmul (some (effGains w).d) (tickDerivative w))

/-- The process-state update new_measured_value = measured_value +
pid_output * dt. -/
def tickNewMeasured (w : WinState) : FVal :=
  fadd (rowAt w).measured (fmul (tickOutput w) (some (dtOf w)))

/-- The observable outcome of one update_plot call: either the early
return at end of data (Done in the spec) or an advance over the row at the
given index (Advanced in the spec). -/
inductive TickResult where
  | Done : TickResult
  | Advanced : ℕ → TickResult
deriving DecidableEq

/-- Which branch of update_plot the call enters (the advance branch may
still raise at the column reads, captured by tickRaises). -/
def tickResult (w : WinState) : TickResult :=
  if tickDone w then .Done else .Advanced w.cursor

/-- Models MainWindow.update_plot, the per-tick control step.

On the early return the timer is stopped (and the PID controls re-enabled,
which is display only).  Next the Setpoint and Valor Medido cells at the
cursor are read; if either column is absent, the read raises KeyError and
nothing has been mutated (modelled as the identity on the state, with
tickRaises marking that the call raised).  Otherwise the error, integral,
derivative, output and new measured value are computed, the Valor Medido
and Error cells of the row at the cursor are overwritten (the Error write
creates its column if needed), previous_error is updated and the cursor
advances by one.  Plot and table refreshes have no engine effect. -/
def update_plot (w : WinState) : WinState :=
  if tickDone w then { w with timerActive := false }
  else if w.colSetpoint = false ∨ w.colMeasured = false then w
  else
    { w with
      store := w.store.set w.cursor
        { rowAt w with measured := tickNewMeasured w, error := tickErrorVal w }
      colError := true
      previousError := tickErrorVal w
      integralError := tickIntegral w
      cursor := w.cursor + 1 }

/-- Models MainWindow.start_simulation.  Refuses on an empty store;
otherwise starts the timer, freezes the UI gains into fixed_pid_values,
stamps each frozen gain over its whole column when that column exists in
the DataFrame, and resets previous_error, integral_error and
current_index to zero.  (Button and widget toggling, and the table
clearing, are display only.) -/
def start_simulation (w : WinState) (ui : UIState) : WinState :=
  if w.store = [] then w
  else
    let g : Gains := ⟨get_pid_value_from_ui ui.axP,
                      get_pid_value_from_ui ui.axI,
                      get_pid_value_from_ui ui.axD⟩
    { w with
      timerActive := true
      fixedGains := some g
      store := w.store.map (fun s =>
        { s with
          p := if w.colP then some g.p else s.p
          i := if w.colI then some g.i else s.i
          d := if w.colD then some g.d else s.d })
      previousError := some 0
      integralError := some 0
      cursor := 0 }

/-- Models MainWindow.pause_simulation: stops the timer; data, errors and
cursor are untouched. -/
def pause_simulation (w : WinState) : WinState :=
  { w with timerActive := false }

/-- Models MainWindow.reset_simulation: stops the timer, zeroes cursor and
errors, clears fixed_pid_values and replaces simulation_data by a fresh
empty DataFrame (all rows and columns gone). -/
def reset_simulation (w : WinState) : WinState :=
  { w with
    timerActive := false
    cursor := 0
    previousError := some 0
    integralError := some 0
    fixedGains := none
    store := []
    colTime := false
    colSetpoint := false
    colMeasured := false
    colError := false
    colP := false
    colI := false
    colD := false }

/-- A decoded JSON record: any subset of the seven named fields, a missing
field being none.  (A JSON object key always carries a value, so key
presence coincides with the field being some.) -/
abbrev Rec := Sample

/-- The state right after the append inside process_received_data:
pd.DataFrame([json_data]) followed by pd.concat appends one row, aligning
columns — the fields the record carries create their columns if absent,
and fields the record is missing become NaN cells in the new row. -/
def ingestState (w : WinState) (r : Rec) : WinState :=
  { w with
    store := w.store ++ [r]
    colTime := w.colTime || r.time.isSome
    colSetpoint := w.colSetpoint || r.setpoint.isSome
    colMeasured := w.colMeasured || r.measured.isSome
    colError := w.colError || r.error.isSome
    colP := w.colP || r.p.isSome
    colI := w.colI || r.i.isSome
    colD := w.colD || r.d.isSome }

/-- Models MainWindow.process_received_data on a decoded dict: appends the
record as a new DataFrame row and then calls update_plot, followed by a
table refresh (display only).  When update_plot raises KeyError (missing
Setpoint or Valor Medido column), the append has already happened and the
exception propagates to the caller. -/
def process_received_data (w : WinState) (r : Rec) : WinState :=
  update_plot (ingestState w r)

/-- Whether the update_plot call inside process_received_data raises; the
exception escapes process_received_data into the receive loop. -/
def process_raises (w : WinState) (r : Rec) : Prop :=
  tickRaises (ingestState w r)

instance (w : WinState) (r : Rec) : Decidable (process_raises w r) := by
  unfold process_raises; infer_instance

/-- One chunk returned by a socket recv in receive_data: closed is a
zero-byte read (peer closed); badBytes is a payload that is not valid
UTF-8, so data.decode raises UnicodeDecodeError; garbage is valid UTF-8
on which json.loads raises JSONDecodeError; nonDict is valid JSON that is
not an object (rejected by the isinstance dict check inside
process_received_data); record is a decoded object. -/
inductive RawChunk where
  | closed : RawChunk
  | badBytes : RawChunk
  | garbage : RawChunk
  | nonDict : RawChunk
  | record : Rec → RawChunk

/-- The receive loop of MainWindow.receive_data over a sequence of chunks.
While self.running, read a chunk; stop cleanly on a zero-byte read.  A
UnicodeDecodeError from data.decode is not caught by the inner handler
(which names only json.JSONDecodeError), so it reaches the outer handler
and the loop terminates.  A JSONDecodeError is logged and the loop
continues.  A non-dict payload makes process_received_data return without
appending.  A decoded record is processed; if that processing raises
KeyError (missing Setpoint or Valor Medido column), the exception also
reaches the outer handler and the loop terminates after the append. -/
def receive_loop (w : WinState) : List RawChunk → WinState
  | [] => w
  | c :: rest =>
    if w.running then
      match c with
      | .closed => w
      | .badBytes => w
      | .garbage => receive_loop w rest
      | .nonDict => receive_loop w rest
      | .record r =>
        if process_raises w r then process_received_data w r
        else receive_loop (process_received_data w r) rest
    else w

/-! Concrete states used to instantiate the theorems below. -/

/-- A one-row store as in the spec scenario: time 0, setpoint 50,
measured 40, remaining fields never supplied. -/
def scenRow : Sample := ⟨some 0, some 50, some 40, none, none, none, none⟩

/-- The window state before the scenario run starts: one-row store with
the Time, Setpoint and Valor Medido columns present, timer interval
100 ms (dt = 0.1). -/
def scenW0 : WinState :=
  { store := [scenRow]
    colTime := true, colSetpoint := true, colMeasured := true
    colError := false, colP := false, colI := false, colD := false
    fixedGains := none
    previousError := some 0, integralError := some 0
    cursor := 0, timerActive := false, intervalMs := 100, running := false }

/-- The scenario configuration surface: P enabled with gain 1.0, I and D
disabled. -/
def scenUI : UIState :=
  { axP := ⟨true, some 1, some 1⟩
    axI := ⟨false, some (1/2), some (1/2)⟩
    axD := ⟨false, some (1/2), some (1/2)⟩ }

/-- The scenario state right after start_simulation. -/
def scenRun : WinState := start_simulation scenW0 scenUI

/-- A fully populated telemetry record, as emitted by server.py at
step 1: Time 0.1, Setpoint 50, Valor Medido 49.5, Error 0.5, gains
0.1 / 0.05 / 0.01. -/
def fullRec : Rec :=
  ⟨some (1/10), some 50, some (99/2), some (1/2),
   some (1/10), some (1/20), some (1/100)⟩

/-- A paused run with one unprocessed row and the cursor at 0, a frozen
gain snapshot, the Time / Setpoint / Valor Medido columns present, and
the socket loop running. -/
def pausedW : WinState :=
  { store := [scenRow]
    colTime := true, colSetpoint := true, colMeasured := true
    colError := false, colP := false, colI := false, colD := false
    fixedGains := some ⟨1, 0, 0⟩
    previousError := some 0, integralError := some 0
    cursor := 0, timerActive := false, intervalMs := 100, running := true }

/-- A paused run whose cursor has already advanced to 1. -/
def pausedW1 : WinState :=
  { pausedW with cursor := 1 }

/-- A mid-run state whose single row was ingested from the network and
carries the server gain fields 0.1 / 0.05 / 0.01 (all columns present),
while the frozen run gains are Kp = 1, Ki = Kd = 0. -/
def ingestedRunW : WinState :=
  { store := [fullRec]
    colTime := true, colSetpoint := true, colMeasured := true
    colError := true, colP := true, colI := true, colD := true
    fixedGains := some ⟨1, 0, 0⟩
    previousError := some 0, integralError := some 0
    cursor := 0, timerActive := true, intervalMs := 100, running := true }

/-- A record carrying only the Time field; every other field is absent. -/
def timeOnlyRec : Rec := ⟨some 1, none, none, none, none, none, none⟩

/-- The initial state: empty store, no columns at all, socket loop
running. -/
def emptyStoreW : WinState :=
  { store := []
    colTime := false, colSetpoint := false, colMeasured := false
    colError := false, colP := false, colI := false, colD := false
    fixedGains := none
    previousError := some 0, integralError := some 0
    cursor := 0, timerActive := false, intervalMs := 100, running := true }

/-- A state with a zero timer interval, hence dt = 0. -/
def zeroDtW : WinState :=
  { pausedW with intervalMs := 0 }

/-- A two-row store on which every tick observes the constant error 2
(setpoint 3, measured 1 in both rows), with only the I axis enabled
(Ki = 1) and dt = 0.1. -/
def constErrW : WinState :=
  { store := [⟨some 0, some 3, some 1, none, none, none, none⟩,
              ⟨some (1/10), some 3, some 1, none, none, none, none⟩]
    colTime := true, colSetpoint := true, colMeasured := true
    colError := false, colP := false, colI := false, colD := false
    fixedGains := some ⟨0, 1, 0⟩
    previousError := some 0, integralError := some 0
    cursor := 0, timerActive := true, intervalMs := 100, running := false }

/-! Structural lemmas about the tick. -/

lemma not_tickDone_of_lt (w : WinState) (h : w.cursor < w.store.length) :
    ¬ tickDone w := by
  simp only [tickDone, not_or]
  refine ⟨fun he => ?_, by omega⟩
  rw [he] at h; simp at h

lemma cursor_lt_of_not_tickDone (w : WinState) (h : ¬ tickDone w) :
    w.cursor < w.store.length := by
  rcases not_or.mp h with ⟨_, hlt⟩
  omega

lemma update_plot_done (w : WinState) (h : w.store.length ≤ w.cursor) :
    update_plot w = { w with timerActive := false } := by
  have hd : tickDone w := Or.inr h
  simp [update_plot, hd]

lemma update_plot_raise (w : WinState) (h : tickRaises w) :
    update_plot w = w := by
  obtain ⟨hnd, hcols⟩ := h
  unfold update_plot
  rw [if_neg hnd, if_pos hcols]

lemma update_plot_advance (w : WinState) (h : w.cursor < w.store.length)
    (hcs : w.colSetpoint = true) (hcm : w.colMeasured = true) :
    update_plot w =
      { w with
        store := w.store.set w.cursor
          { rowAt w with measured := tickNewMeasured w, error := tickErrorVal w }
        colError := true
        previousError := tickErrorVal w
        integralError := tickIntegral w
        cursor := w.cursor + 1 } := by
  unfold update_plot
  rw [if_neg (not_tickDone_of_lt w h), if_neg (by simp [hcs, hcm])]

lemma update_plot_intervalMs (w : WinState) :
    (update_plot w).intervalMs = w.intervalMs := by
  unfold update_plot
  split
  · rfl
  · split <;> rfl

lemma update_plot_fixedGains (w : WinState) :
    (update_plot w).fixedGains = w.fixedGains := by
  unfold update_plot
  split
  · rfl
  · split <;> rfl

lemma update_plot_colSetpoint (w : WinState) :
    (update_plot w).colSetpoint = w.colSetpoint := by
  unfold update_plot
  split
  · rfl
  · split <;> rfl

lemma update_plot_colMeasured (w : WinState) :
    (update_plot w).colMeasured = w.colMeasured := by
  unfold update_plot
  split
  · rfl
  · split <;> rfl

lemma update_plot_store_length (w : WinState) :
    (update_plot w).store.length = w.store.length := by
  unfold update_plot
  split
  · rfl
  · split
    · rfl
    · simp

lemma dtOf_update_plot (w : WinState) : dtOf (update_plot w) = dtOf w := by
  simp [dtOf, update_plot_intervalMs]

lemma effGains_update_plot (w : WinState) :
    effGains (update_plot w) = effGains w := by
  simp [effGains, update_plot_fixedGains]

/-- Rows other than the one at the cursor are never touched by a tick. -/
lemma update_plot_get_ne (w : WinState) (j : ℕ) (hj : j ≠ w.cursor) :
    (update_plot w).store.get? j = w.store.get? j := by
  unfold update_plot
  split
  · rfl
  · split
    · rfl
    · simp [List.getElem?_set_ne (Ne.symm hj)]

/-- Any projection of a stored row that ignores the measured and error
cells is invariant under a tick, whichever branch the tick takes. -/
lemma update_plot_store_proj (w : WinState) (f : Sample → FVal)
    (hf : ∀ (s : Sample) (me er : FVal),
      f { s with measured := me, error := er } = f s) (j : ℕ) :
    ((update_plot w).store.get? j).map f = (w.store.get? j).map f := by
  unfold update_plot
  split
  · rfl
  · rename_i hnd
    split
    · rfl
    · have hlt : w.cursor < w.store.length := cursor_lt_of_not_tickDone w hnd
      by_cases he : w.cursor = j
      · subst he
        have hrow : rowAt w = w.store[w.cursor] := by
          simp [rowAt, List.getD_eq_getElem?_getD, List.getElem?_eq_getElem hlt]
        simp only [List.get?_eq_getElem?, List.getElem?_set_eq hlt,
          List.getElem?_eq_getElem hlt, Option.map_some']
        rw [hf, hrow]
      · simp [List.getElem?_set_ne he]

lemma dtOf_iterate (w : WinState) (n : ℕ) :
    dtOf (update_plot^[n] w) = dtOf w := by
  induction n with
  | zero => rfl
  | succ n ih => rw [Function.iterate_succ_apply', dtOf_update_plot, ih]

lemma effGains_iterate (w : WinState) (n : ℕ) :
    effGains (update_plot^[n] w) = effGains w := by
  induction n with
  | zero => rfl
  | succ n ih => rw [Function.iterate_succ_apply', effGains_update_plot, ih]

lemma colSetpoint_iterate (w : WinState) (n : ℕ) :
    (update_plot^[n] w).colSetpoint = w.colSetpoint := by
  induction n with
  | zero => rfl
  | succ n ih => rw [Function.iterate_succ_apply', update_plot_colSetpoint, ih]

lemma colMeasured_iterate (w : WinState) (n : ℕ) :
    (update_plot^[n] w).colMeasured = w.colMeasured := by
  induction n with
  | zero => rfl
  | succ n ih => rw [Function.iterate_succ_apply', update_plot_colMeasured, ih]

/-! Accumulation lemmas for runs of ticks with a constant observed error. -/

lemma iterate_integral_accum (w : WinState) (e ie : ℚ) (N : ℕ)
    (hie : w.integralError = some ie)
    (hcs : w.colSetpoint = true) (hcm : w.colMeasured = true)
    (h : ∀ j, j < N → ¬ tickDone (update_plot^[j] w) ∧
      tickErrorVal (update_plot^[j] w) = some e) :
    (update_plot^[N] w).integralError = some (ie + e * dtOf w * N) := by
  induction N with
  | zero => simpa using hie
  | succ n ih =>
    have ih' := ih (fun j hj => h j (by omega))
    obtain ⟨hnd, herr⟩ := h n (by omega)
    rw [Function.iterate_succ_apply']
    have hlt : (update_plot^[n] w).cursor < (update_plot^[n] w).store.length :=
      cursor_lt_of_not_tickDone _ hnd
    have hcs' : (update_plot^[n] w).colSetpoint = true := by
      rw [colSetpoint_iterate]; exact hcs
    have hcm' : (update_plot^[n] w).colMeasured = true := by
      rw [colMeasured_iterate]; exact hcm
    rw [update_plot_advance _ hlt hcs' hcm']
    simp only [tickIntegral, herr, ih', dtOf_iterate, fadd, fmul]
    push_cast
    ring_nf

lemma iterate_previousError_some (w : WinState) (e : ℚ) (N : ℕ) (j : ℕ)
    (hj : j ≤ N)
    (hp : ∃ q, w.previousError = some q)
    (hcs : w.colSetpoint = true) (hcm : w.colMeasured = true)
    (h : ∀ j, j < N → ¬ tickDone (update_plot^[j] w) ∧
      tickErrorVal (update_plot^[j] w) = some e) :
    ∃ q, (update_plot^[j] w).previousError = some q := by
  induction j with
  | zero => simpa using hp
  | succ n ih =>
    obtain ⟨hnd, herr⟩ := h n (by omega)
    have hlt : (update_plot^[n] w).cursor < (update_plot^[n] w).store.length :=
      cursor_lt_of_not_tickDone _ hnd
    have hcs' : (update_plot^[n] w).colSetpoint = true := by
      rw [colSetpoint_iterate]; exact hcs
    have hcm' : (update_plot^[n] w).colMeasured = true := by
      rw [colMeasured_iterate]; exact hcm
    rw [Function.iterate_succ_apply', update_plot_advance _ hlt hcs' hcm']
    exact ⟨e, herr⟩

/-! Lemmas about ingestion. -/

/-- Ingesting one decoded record grows the store by exactly one row,
whether or not the triggered tick raises. -/
lemma prd_length (w : WinState) (r : Rec) :
    (process_received_data w r).store.length = w.store.length + 1 := by
  unfold process_received_data
  rw [update_plot_store_length]
  simp [ingestState]

/-- Any projection of the freshly appended row that ignores the measured
and error cells (which the immediately triggered tick may rewrite) equals
the same projection of the ingested record. -/
lemma prd_appended_proj (w : WinState) (r : Rec) (f : Sample → FVal)
    (hf : ∀ (s : Sample) (me er : FVal),
      f { s with measured := me, error := er } = f s) :
    ((process_received_data w r).store.get? w.store.length).map f
      = some (f r) := by
  unfold process_received_data
  rw [update_plot_store_proj _ f hf]
  simp [ingestState, List.getElem?_concat_length]

/-! Claim theorems. -/

/-- C1: on  a run started from a one-row store (time 0, setpoint 50,
measured 40) with only the P axis enabled at gain 1.0 and dt = 0.1, the
first tick computes error 10, output 10.0, writes the new measured value
41.0 into that row and advances the cursor to 1, and the second tick
returns Done; in general an advancing tick computes
error = setpoint - measured,
output = Kp * error + Ki * integralError + Kd * derivativeError, and
newMeasured = measured + output * dt, with effective gain 0.0 for any
disabled axis. -/
theorem c1_tick_scenario_and_general_formula :
    (tickErrorVal scenRun = some 10 ∧
     tickOutput scenRun = some 10 ∧
     tickNewMeasured scenRun = some 41 ∧
     ((update_plot scenRun).store.get? 0).map Sample.measured = some (some 41) ∧
     (update_plot scenRun).cursor = 1 ∧
     tickResult (update_plot scenRun) = .Done) ∧
    (∀ (w : WinState) (sp m pe ie : ℚ),
      (rowAt w).setpoint = some sp → (rowAt w).measured = some m →
      w.previousError = some pe → w.integralError = some ie →
      0 < dtOf w →
      tickErrorVal w = some (sp - m) ∧
      tickOutput w = some ((effGains w).p * (sp - m)
        + (effGains w).i * (ie + (sp - m) * dtOf w)
        + (effGains w).d * ((sp - m - pe) / dtOf w)) ∧
      tickNewMeasured w = some (m + ((effGains w).p * (sp - m)
        + (effGains w).i * (ie + (sp - m) * dtOf w)
        + (effGains w).d * ((sp - m - pe) / dtOf w)) * dtOf w)) ∧
    (∀ a : AxisUI, a.enabled = false → get_pid_value_from_ui a = 0) := by
  refine ⟨?_, ?_, ?_⟩
  · refine ⟨?_, ?_, ?_, ?_, ?_, ?_⟩ <;>
      simp [scenRun, scenW0, scenUI, scenRow, start_simulation, get_pid_value_from_ui,
            update_plot, tickDone, tickResult, tickErrorVal, tickOutput, tickIntegral,
            tickDerivative, tickNewMeasured, effGains, dtOf, rowAt,
            fadd, fsub, fmul, fdivC] <;> norm_num
  · intro w sp m pe ie hsp hm hpe hie hdt
    have hd : tickDerivative w = some ((sp - m - pe) / dtOf w) := by
      simp [tickDerivative, hdt, tickErrorVal, hsp, hm, hpe, fsub, fdivC]
    refine ⟨?_, ?_, ?_⟩
    · simp [tickErrorVal, hsp, hm, fsub]
    · simp [tickOutput, hd, tickIntegral, tickErrorVal, hsp, hm, hie, fadd, fsub, fmul]
    · simp [tickNewMeasured, tickOutput, hd, tickIntegral, tickErrorVal, hsp, hm, hie,
            fadd, fsub, fmul]
  · intro a ha
    simp [get_pid_value_from_ui, ha]

/-- Witness for C1: the general tick formula instantiated at the scenario
state, every hypothesis discharged concretely. -/
theorem c1_tick_scenario_and_general_formula_witness :
    ((rowAt scenRun).setpoint = some 50 ∧ (rowAt scenRun).measured = some 40 ∧
     scenRun.previousError = some 0 ∧ scenRun.integralError = some 0 ∧
     0 < dtOf scenRun) ∧
    tickErrorVal scenRun = some (50 - 40) := by
  have hsp : (rowAt scenRun).setpoint = some 50 := by
    simp [scenRun, scenW0, scenUI, scenRow, start_simulation, rowAt]
  have hm : (rowAt scenRun).measured = some 40 := by
    simp [scenRun, scenW0, scenUI, scenRow, start_simulation, rowAt]
  have hpe : scenRun.previousError = some 0 := by
    simp [scenRun, scenW0, scenUI, scenRow, start_simulation]
  have hie : scenRun.integralError = some 0 := by
    simp [scenRun, scenW0, scenUI, scenRow, start_simulation]
  have hdt : 0 < dtOf scenRun := by
    norm_num [scenRun, scenW0, scenUI, scenRow, start_simulation, dtOf]
  exact ⟨⟨hsp, hm, hpe, hie, hdt⟩,
    (c1_tick_scenario_and_general_formula.2.1 scenRun 50 40 0 0 hsp hm hpe hie hdt).1⟩

/-- C6: whenever the cursor has reached the store length, the tick takes
the Done branch and mutates neither the store nor the controller state:
store, previousError, integralError and cursor are identical before and
after the call. -/
theorem c6_tick_done_frame (w : WinState) (h : w.store.length ≤ w.cursor) :
    tickResult w = .Done ∧
    (update_plot w).store = w.store ∧
    (update_plot w).previousError = w.previousError ∧
    (update_plot w).integralError = w.integralError ∧
    (update_plot w).cursor = w.cursor := by
  have hd : tickDone w := Or.inr h
  rw [update_plot_done w h]
  simp [tickResult, hd]

/-- Witness for C6 at a one-row store whose cursor already advanced to 1. -/
theorem c6_tick_done_frame_witness :
    pausedW1.store.length ≤ pausedW1.cursor ∧
    tickResult pausedW1 = .Done ∧ (update_plot pausedW1).cursor = pausedW1.cursor := by
  have h : pausedW1.store.length ≤ pausedW1.cursor := by
    simp [pausedW1, pausedW]
  exact ⟨h, (c6_tick_done_frame pausedW1 h).1, (c6_tick_done_frame pausedW1 h).2.2.2.2⟩

/-- C7: for any tick with dt ≤ 0, the derivative term is exactly 0.0
regardless of the current error and the previous error, and the output is
formed with Kd multiplying that zero; the guard means no division by dt is
ever attempted for non-positive dt (the model divides only inside the
dt > 0 branch). -/
theorem c7_derivative_guard (w : WinState) (h : dtOf w ≤ 0) :
    tickDerivative w = some 0 ∧
    tickOutput w =
      fadd (fadd (fmul (some (effGains w).p) (tickErrorVal w))
                 (fmul (some (effGains w).i) (tickIntegral w)))
           (fmul (some (effGains w).d) (some 0)) := by
  have h' : ¬ 0 < dtOf w := not_lt.mpr h
  exact ⟨by simp [tickDerivative, h'], by simp [tickOutput, tickDerivative, h']⟩

/-- Witness for C7 at a state whose timer interval is 0 ms. -/
theorem c7_derivative_guard_witness :
    dtOf zeroDtW ≤ 0 ∧ tickDerivative zeroDtW = some 0 := by
  have h : dtOf zeroDtW ≤ 0 := by norm_num [dtOf, zeroDtW, pausedW]
  exact ⟨h, (c7_derivative_guard zeroDtW h).1⟩

/-- Counterexample to C3: it is not true that start leaves the cursor
unchanged — at a paused run whose cursor is 1, start moves the cursor back
to 0. -/
theorem c3_counterexample : ¬ (∀ (w : WinState) (ui : UIState),
    (start_simulation w ui).previousError = some 0 ∧
    (start_simulation w ui).integralError = some 0 ∧
    (start_simulation w ui).cursor = w.cursor) := by
  intro h
  have hc := (h pausedW1 scenUI).2.2
  simp [start_simulation, pausedW1, pausedW] at hc

/-- C3 (amended): on a nonempty store, start resets previousError and
integralError to 0 and also resets the cursor to 0, so after a pause at
cursor k a subsequent start reprocesses from row 0, not from k; pause
itself preserves cursor and error state, and an explicit reset also sets
the cursor to 0 while clearing the store. -/
theorem c3_start_resets_cursor (w : WinState) (ui : UIState)
    (h : w.store ≠ []) :
    (start_simulation (pause_simulation w) ui).previousError = some 0 ∧
    (start_simulation (pause_simulation w) ui).integralError = some 0 ∧
    (start_simulation (pause_simulation w) ui).cursor = 0 ∧
    (pause_simulation w).cursor = w.cursor ∧
    (pause_simulation w).previousError = w.previousError ∧
    (pause_simulation w).integralError = w.integralError ∧
    (reset_simulation w).cursor = 0 ∧
    (reset_simulation w).store = [] := by
  simp [start_simulation, pause_simulation, reset_simulation, h]

/-- Witness for C3 (amended) at the paused one-row run with cursor 1. -/
theorem c3_start_resets_cursor_witness :
    pausedW1.store ≠ [] ∧
    (start_simulation (pause_simulation pausedW1) scenUI).cursor = 0 := by
  have h : pausedW1.store ≠ [] := by simp [pausedW1, pausedW]
  exact ⟨h, (c3_start_resets_cursor pausedW1 scenUI h).2.2.1⟩

/-- Counterexample to C4: after an advancing tick the gain cells of the
processed row do not in general hold the effective gains applied in that
tick — at a mid-run state whose row was ingested with P = 0.1 while the
frozen run gain is Kp = 1, the row keeps P = 0.1 after the tick. -/
theorem c4_counterexample : ¬ (∀ w : WinState, w.cursor < w.store.length →
    ((update_plot w).store.get? w.cursor).map Sample.measured
        = some (tickNewMeasured w) ∧
    ((update_plot w).store.get? w.cursor).map Sample.error
        = some (tickErrorVal w) ∧
    ((update_plot w).store.get? w.cursor).map Sample.p
        = some (some (effGains w).p) ∧
    ((update_plot w).store.get? w.cursor).map Sample.i
        = some (some (effGains w).i) ∧
    ((update_plot w).store.get? w.cursor).map Sample.d
        = some (some (effGains w).d)) := by
  intro h
  have hp := (h ingestedRunW (by simp [ingestedRunW])).2.2.1
  simp [update_plot, tickDone, ingestedRunW, fullRec, effGains, rowAt] at hp

/-- C4 (amended): an advancing tick whose Setpoint and Valor Medido
columns are present writes back into the row at the cursor exactly the
updated measured value and the computed error; the time and gain cells of
that row are left as they were (the gains applied come from the frozen
config, which start stamps over pre-existing gain columns at run start —
the tick itself never writes gain cells), and every other row is
untouched; when either of those two columns is missing, the tick raises
KeyError at the reads and mutates nothing at all. -/
theorem c4_tick_writeback (w : WinState) (h : w.cursor < w.store.length)
    (hcs : w.colSetpoint = true) (hcm : w.colMeasured = true) :
    (update_plot w).store.get? w.cursor =
      some { rowAt w with measured := tickNewMeasured w, error := tickErrorVal w } ∧
    (∀ j, j ≠ w.cursor → (update_plot w).store.get? j = w.store.get? j) ∧
    (∀ v : WinState, tickRaises v → update_plot v = v) := by
  refine ⟨?_, fun j hj => update_plot_get_ne w j hj,
    fun v hv => update_plot_raise v hv⟩
  rw [update_plot_advance w h hcs hcm]
  simp [List.getElem?_set_eq h]

/-- Witness for C4 (amended): the write-back at the mid-run state with
one ingested row, and the no-mutation raise at a store whose first record
carried only the Time field. -/
theorem c4_tick_writeback_witness :
    (ingestedRunW.cursor < ingestedRunW.store.length ∧
     ingestedRunW.colSetpoint = true ∧ ingestedRunW.colMeasured = true ∧
     (update_plot ingestedRunW).store.get? ingestedRunW.cursor =
       some { rowAt ingestedRunW with
              measured := tickNewMeasured ingestedRunW
              error := tickErrorVal ingestedRunW }) ∧
    (tickRaises (ingestState emptyStoreW timeOnlyRec) ∧
     update_plot (ingestState emptyStoreW timeOnlyRec)
       = ingestState emptyStoreW timeOnlyRec) := by
  have h : ingestedRunW.cursor < ingestedRunW.store.length := by simp [ingestedRunW]
  have hr : tickRaises (ingestState emptyStoreW timeOnlyRec) := by
    constructor
    · simp [tickDone, ingestState, emptyStoreW]
    · simp [ingestState, emptyStoreW, timeOnlyRec]
  exact ⟨⟨h, rfl, rfl, (c4_tick_writeback ingestedRunW h rfl rfl).1⟩,
    ⟨hr, (c4_tick_writeback ingestedRunW h rfl rfl).2.2 _ hr⟩⟩

/-- Counterexample to C5: a decoded record missing a numeric field is not
appended with that field defaulted to 0.0 — ingesting a record carrying
only the Time field leaves the P cell of the appended row absent (NaN),
not 0.0. -/
theorem c5_counterexample : ¬ (∀ (w : WinState) (r : Rec),
    (r.time = none →
      ((process_received_data w r).store.get? w.store.length).map Sample.time
        = some (some 0)) ∧
    (r.setpoint = none →
      ((process_received_data w r).store.get? w.store.length).map Sample.setpoint
        = some (some 0)) ∧
    (r.measured = none →
      ((process_received_data w r).store.get? w.store.length).map Sample.measured
        = some (some 0)) ∧
    (r.error = none →
      ((process_received_data w r).store.get? w.store.length).map Sample.error
        = some (some 0)) ∧
    (r.p = none →
      ((process_received_data w r).store.get? w.store.length).map Sample.p
        = some (some 0)) ∧
    (r.i = none →
      ((process_received_data w r).store.get? w.store.length).map Sample.i
        = some (some 0)) ∧
    (r.d = none →
      ((process_received_data w r).store.get? w.store.length).map Sample.d
        = some (some 0))) := by
  intro h
  have h1 := (h pausedW timeOnlyRec).2.2.2.2.1 rfl
  have h2 := prd_appended_proj pausedW timeOnlyRec Sample.p (fun _ _ _ => rfl)
  rw [h1] at h2
  simp [timeOnlyRec] at h2

/-- C5 (amended): the appended row carries exactly the ingested record
cell for cell on the fields the tick never writes (time, setpoint and the
three gain cells); a field the record is missing stays missing (NaN) in
the store — no defaulting to 0.0 takes place. -/
theorem c5_missing_fields_stay_missing (w : WinState) (r : Rec) :
    ((process_received_data w r).store.get? w.store.length).map Sample.time
        = some r.time ∧
    ((process_received_data w r).store.get? w.store.length).map Sample.setpoint
        = some r.setpoint ∧
    ((process_received_data w r).store.get? w.store.length).map Sample.p
        = some r.p ∧
    ((process_received_data w r).store.get? w.store.length).map Sample.i
        = some r.i ∧
    ((process_received_data w r).store.get? w.store.length).map Sample.d
        = some r.d :=
  ⟨prd_appended_proj w r Sample.time (fun _ _ _ => rfl),
   prd_appended_proj w r Sample.setpoint (fun _ _ _ => rfl),
   prd_appended_proj w r Sample.p (fun _ _ _ => rfl),
   prd_appended_proj w r Sample.i (fun _ _ _ => rfl),
   prd_appended_proj w r Sample.d (fun _ _ _ => rfl)⟩

/-- C8: for dt > 0, if each of N consecutive ticks of a run started with
zeroed accumulators observes the same error e (which entails the Setpoint
and Valor Medido columns are present, so every tick passes the reads)
with only the I axis enabled (Kp = Kd = 0, Ki = k), then the integral
accumulator after N ticks equals e * dt * N and the N-th tick output
equals k * e * dt * N; moreover the accumulator update (plus error times
dt) is applied on every advancing tick that passes the reads, regardless
of which axes are enabled. -/
theorem c8_integral_accumulation (w : WinState) (e k : ℚ) (N : ℕ)
    (hdt : 0 < dtOf w)
    (hg : w.fixedGains = some ⟨0, k, 0⟩)
    (hie : w.integralError = some 0)
    (hpe : w.previousError = some 0)
    (hcs : w.colSetpoint = true)
    (hcm : w.colMeasured = true)
    (h : ∀ j, j < N → ¬ tickDone (update_plot^[j] w) ∧
      tickErrorVal (update_plot^[j] w) = some e) :
    (update_plot^[N] w).integralError = some (e * dtOf w * N) ∧
    (0 < N → tickOutput (update_plot^[N - 1] w) = some (k * (e * dtOf w * N))) ∧
    (∀ v : WinState, ¬ tickDone v → v.colSetpoint = true → v.colMeasured = true →
      (update_plot v).integralError = tickIntegral v) := by
  have hacc := iterate_integral_accum w e 0 N hie hcs hcm h
  refine ⟨by simpa using hacc, fun hN => ?_, fun v hv hvs hvm => by
    rw [update_plot_advance v (cursor_lt_of_not_tickDone v hv) hvs hvm]⟩
  have hacc' := iterate_integral_accum w e 0 (N - 1) hie hcs hcm
    (fun j hj => h j (by omega))
  obtain ⟨hnd, herr⟩ := h (N - 1) (by omega)
  obtain ⟨q, hq⟩ :=
    iterate_previousError_some w e N (N - 1) (by omega) ⟨0, hpe⟩ hcs hcm h
  have hgi : effGains (update_plot^[N - 1] w) = ⟨0, k, 0⟩ := by
    rw [effGains_iterate]; simp [effGains, hg]
  have hdt' : 0 < dtOf (update_plot^[N - 1] w) := by rwa [dtOf_iterate]
  have hint : (update_plot^[N - 1] w).integralError
      = some (0 + e * dtOf w * (N - 1 : ℕ)) := hacc'
  rw [tickOutput, tickIntegral, tickDerivative, if_pos hdt', hgi, hint, herr, hq,
    dtOf_iterate]
  simp only [fadd, fsub, fmul, fdivC, Option.map_some']
  have hcast : ((N - 1 : ℕ) : ℚ) = (N : ℚ) - 1 := by
    have : (1 : ℕ) ≤ N := hN
    push_cast [Nat.cast_sub this]
    ring
  rw [hcast]
  congr 1
  ring

/-- Witness for C8: a two-row run with constant error 2, only the I axis
enabled at gain 1 and dt = 0.1 reaches integral accumulator
2 * 0.1 * 2 after its two ticks. -/
theorem c8_integral_accumulation_witness :
    0 < dtOf constErrW ∧ constErrW.colSetpoint = true ∧
    (update_plot^[2] constErrW).integralError
      = some (2 * dtOf constErrW * (2 : ℕ)) := by
  have hdt : 0 < dtOf constErrW := by norm_num [dtOf, constErrW]
  have h : ∀ j, j < 2 → ¬ tickDone (update_plot^[j] constErrW) ∧
      tickErrorVal (update_plot^[j] constErrW) = some 2 := by
    intro j hj
    interval_cases j
    · constructor
      · simp [tickDone, constErrW]
      · simp [tickErrorVal, rowAt, constErrW, fsub]
        norm_num
    · rw [Function.iterate_one,
        update_plot_advance constErrW (by simp [constErrW]) rfl rfl]
      constructor
      · simp [tickDone, constErrW]
      · simp [tickErrorVal, rowAt, constErrW, fsub]
        norm_num
  exact ⟨hdt, rfl,
    (c8_integral_accumulation constErrW 2 1 2 hdt rfl rfl rfl rfl rfl h).1⟩

/-- Counterexample to C9: it is not true that every chunk failing to
decode is discarded with the loop continuing — a chunk that is not valid
UTF-8 raises UnicodeDecodeError, which the inner except clause (naming
only json.JSONDecodeError) does not catch, so the outer handler ends the
loop and a following valid record is never read: the store gains zero
rows, not one. -/
theorem c9_counterexample : ¬ (∀ (w : WinState) (c : RawChunk),
    (c = RawChunk.garbage ∨ c = RawChunk.badBytes) → ∀ r : Rec,
    w.running = true →
    (receive_loop w [c, .record r]).store.length = w.store.length + 1) := by
  intro h
  have hc := h pausedW RawChunk.badBytes (Or.inr rfl) fullRec rfl
  simp [receive_loop, pausedW] at hc

/-- C9 (amended): a chunk that is valid UTF-8 but fails JSON decoding is
logged, discarded and the loop continues, so garbage followed by a valid
record adds exactly one row — the valid one — to the store; but a chunk
that fails UTF-8 decoding raises UnicodeDecodeError, caught only by the
outer handler, which terminates the ingestion loop with nothing appended
and any later chunks never read. -/
theorem c9_decode_failure_paths (w : WinState) (r : Rec)
    (h : w.running = true) :
    ((receive_loop w [.garbage, .record r]).store.length
        = w.store.length + 1 ∧
     ((receive_loop w [.garbage, .record r]).store.get? w.store.length).map
        Sample.time = some r.time ∧
     ((receive_loop w [.garbage, .record r]).store.get? w.store.length).map
        Sample.setpoint = some r.setpoint) ∧
    (∀ rest : List RawChunk, receive_loop w (.badBytes :: rest) = w) := by
  have hred : receive_loop w [.garbage, .record r] = process_received_data w r := by
    simp [receive_loop, h]
  refine ⟨?_, fun rest => by simp [receive_loop, h]⟩
  rw [hred]
  exact ⟨prd_length w r,
    prd_appended_proj w r Sample.time (fun _ _ _ => rfl),
    prd_appended_proj w r Sample.setpoint (fun _ _ _ => rfl)⟩

/-- Witness for C9 (amended) at the paused one-row run with the socket
loop running: garbage then the full server record adds one row, and a
non-UTF-8 chunk ends the loop with the state unchanged. -/
theorem c9_decode_failure_paths_witness :
    pausedW.running = true ∧
    (receive_loop pausedW [.garbage, .record fullRec]).store.length
      = pausedW.store.length + 1 ∧
    receive_loop pausedW [.badBytes, .record fullRec] = pausedW := by
  exact ⟨rfl, (c9_decode_failure_paths pausedW fullRec rfl).1.1,
    (c9_decode_failure_paths pausedW fullRec rfl).2 [.record fullRec]⟩
